import Mathlib

/-
Verification of the personal-finance-manager repository (src/main.py).

The program consists of a Transaction record (four fields and a display
rendering) and a pure categorizer mapping a signed numeric amount to a label
string.  Numeric amounts are modelled as rationals (ℚ); none of the behaviour
at stake depends on binary floating point, only on order comparisons with the
integer thresholds 0, 100 and 1000, and on decimal rendering of exactly
representable values.
-/

/-- Transaction record from src/main.py: the constructor stores the four
arguments unchanged as the four attributes. -/
structure Transaction where
  amount : ℚ
  category : String
  description : String
  date : String

/-- Render an integer remainder in the range 0 to 99 as exactly two digits,
as the fixed-point formatting does for the fractional part. -/
def twoDigits (k : ℤ) : String :=
  if k < 10 then "0" ++ toString k else toString k

/-- Round a rational to the nearest integer, ties to even — the rounding that
fixed-point decimal formatting applies. -/
def roundHalfEven (q : ℚ) : ℤ :=
  if q - ⌊q⌋ < 1/2 then ⌊q⌋
  else if q - ⌊q⌋ > 1/2 then ⌊q⌋ + 1
  else if ⌊q⌋ % 2 = 0 then ⌊q⌋ else ⌊q⌋ + 1

/-- Format a rational to exactly two decimal places, as the format
specifier .2f in the source does. -/
def formatTwoDec (q : ℚ) : String :=
  if roundHalfEven (q * 100) < 0 then
    "-" ++ toString ((-(roundHalfEven (q * 100))) / 100) ++ "." ++
      twoDigits ((-(roundHalfEven (q * 100))) % 100)
  else
    toString (roundHalfEven (q * 100) / 100) ++ "." ++
      twoDigits (roundHalfEven (q * 100) % 100)

/-- The display rendering of a Transaction from src/main.py: the date, a
dash, the category, a colon, a dollar sign, the amount to two decimal
places, and the description in parentheses. -/
def Transaction.render (t : Transaction) : String :=
  t.date ++ " - " ++ t.category ++ ": $" ++ formatTwoDec t.amount ++
    " (" ++ t.description ++ ")"

/-- The categorizer from src/main.py, branch for branch: amounts above 1000
give Large Income when positive and Major Expense otherwise; then amounts
above 100 give Medium Income when positive and Major Expense otherwise;
everything else gives Small Income when positive and Small Expense
otherwise. -/
def categorize_transaction (amount : ℚ) : String :=
  if amount > 1000 then
    if amount > 0 then "Large Income" else "Major Expense"
  else if amount > 100 then
    if amount > 0 then "Medium Income" else "Major Expense"
  else
    if amount > 0 then "Small Income" else "Small Expense"

/-- Rank of a label in the bucket order Small Expense, Small Income,
Medium Income, Large Income. -/
def bucketRank (label : String) : ℕ :=
  if label = "Small Expense" then 0
  else if label = "Small Income" then 1
  else if label = "Medium Income" then 2
  else if label = "Large Income" then 3
  else 4

/-- Rank of an amount according to the interval it falls in. -/
def amountRank (a : ℚ) : ℕ :=
  if a ≤ 0 then 0
  else if a ≤ 100 then 1
  else if a ≤ 1000 then 2
  else 3

/-- Helper: the categorizer never produces the label Major Expense. -/
theorem categorize_ne_major (a : ℚ) :
    categorize_transaction a ≠ "Major Expense" := by
  unfold categorize_transaction
  split_ifs <;> first | decide | linarith

/-- Helper: on non-positive amounts the categorizer yields Small Expense. -/
theorem categorize_of_nonpos (a : ℚ) (h : a ≤ 0) :
    categorize_transaction a = "Small Expense" := by
  unfold categorize_transaction
  split_ifs <;> first | rfl | linarith

/-- Helper: on amounts in the interval from 0 exclusive to 100 inclusive the
categorizer yields Small Income. -/
theorem categorize_of_small (a : ℚ) (h1 : 0 < a) (h2 : a ≤ 100) :
    categorize_transaction a = "Small Income" := by
  unfold categorize_transaction
  split_ifs <;> first | rfl | linarith

/-- Helper: on amounts in the interval from 100 exclusive to 1000 inclusive
the categorizer yields Medium Income. -/
theorem categorize_of_medium (a : ℚ) (h1 : 100 < a) (h2 : a ≤ 1000) :
    categorize_transaction a = "Medium Income" := by
  unfold categorize_transaction
  split_ifs <;> first | rfl | linarith

/-- Helper: on amounts above 1000 the categorizer yields Large Income. -/
theorem categorize_of_large (a : ℚ) (h : 1000 < a) :
    categorize_transaction a = "Large Income" := by
  unfold categorize_transaction
  split_ifs <;> first | rfl | linarith

/-- Helper: the bucket rank of the categorizer output equals the interval
rank of the amount. -/
theorem bucketRank_categorize (a : ℚ) :
    bucketRank (categorize_transaction a) = amountRank a := by
  unfold categorize_transaction amountRank
  split_ifs <;> first | decide | linarith

/-- Helper: the interval rank is monotone in the amount. -/
theorem amountRank_mono (a b : ℚ) (hab : a ≤ b) :
    amountRank a ≤ amountRank b := by
  unfold amountRank
  split_ifs <;> first | decide | linarith

/-- Helper: the two-decimal rendering of 1234.5 is the string 1234.50. -/
theorem roundHalfEven_of_c8_input :
    roundHalfEven ((1234.5 : ℚ) * 100) = 123450 := by
  have h : (1234.5 : ℚ) * 100 = ((123450 : ℤ) : ℚ) := by norm_num
  rw [h]
  unfold roundHalfEven
  norm_num

/-- Helper: formatting 1234.5 to two decimal places gives 1234.50. -/
theorem formatTwoDec_of_c8_input : formatTwoDec (1234.5 : ℚ) = "1234.50" := by
  unfold formatTwoDec
  rw [roundHalfEven_of_c8_input]
  decide

/-- C1: for every numeric amount, categorize_transaction never returns
Major Expense — the else-arms of the two high-magnitude branches are
unreachable because their guards already imply the amount is positive. -/
theorem c1_never_major_expense (a : ℚ) :
    categorize_transaction a ≠ "Major Expense" :=
  categorize_ne_major a

/-- C2: for every amount strictly greater than 1000, categorize_transaction
returns Large Income. -/
theorem c2_large_income (a : ℚ) (h : 1000 < a) :
    categorize_transaction a = "Large Income" :=
  categorize_of_large a h

/-- Witness for C2 at the concrete amount 2000. -/
theorem c2_large_income_witness :
    (1000 : ℚ) < 2000 ∧ categorize_transaction 2000 = "Large Income" :=
  ⟨by norm_num, c2_large_income 2000 (by norm_num)⟩

/-- C3: for every amount less than or equal to 0, categorize_transaction
returns Small Expense — all non-positive amounts, however large in
magnitude, fall through to the final branch. -/
theorem c3_nonpos_small_expense (a : ℚ) (h : a ≤ 0) :
    categorize_transaction a = "Small Expense" :=
  categorize_of_nonpos a h

/-- Witness for C3 at the concrete amounts 0 and -5000. -/
theorem c3_nonpos_small_expense_witness :
    ((0 : ℚ) ≤ 0 ∧ categorize_transaction 0 = "Small Expense") ∧
    ((-5000 : ℚ) ≤ 0 ∧ categorize_transaction (-5000) = "Small Expense") :=
  ⟨⟨by norm_num, c3_nonpos_small_expense 0 (by norm_num)⟩,
   ⟨by norm_num, c3_nonpos_small_expense (-5000) (by norm_num)⟩⟩

/-- C4: for every amount with 100 < amount ≤ 1000, categorize_transaction
returns Medium Income; the upper boundary 1000 takes this branch, not the
large-amount branch. -/
theorem c4_medium_income (a : ℚ) (h1 : 100 < a) (h2 : a ≤ 1000) :
    categorize_transaction a = "Medium Income" :=
  categorize_of_medium a h1 h2

/-- Witness for C4 at the boundary amount 1000. -/
theorem c4_medium_income_witness :
    (100 : ℚ) < 1000 ∧ (1000 : ℚ) ≤ 1000 ∧
    categorize_transaction 1000 = "Medium Income" :=
  ⟨by norm_num, by norm_num, c4_medium_income 1000 (by norm_num) (by norm_num)⟩

/-- C5: for every amount with 0 < amount ≤ 100, categorize_transaction
returns Small Income; the boundary 100 falls to the final branch and yields
Small Income. -/
theorem c5_small_income (a : ℚ) (h1 : 0 < a) (h2 : a ≤ 100) :
    categorize_transaction a = "Small Income" :=
  categorize_of_small a h1 h2

/-- Witness for C5 at the boundary amount 100. -/
theorem c5_small_income_witness :
    (0 : ℚ) < 100 ∧ (100 : ℚ) ≤ 100 ∧
    categorize_transaction 100 = "Small Income" :=
  ⟨by norm_num, by norm_num, c5_small_income 100 (by norm_num) (by norm_num)⟩

/-- C6 counterexample: it is false that each of the five labels, including
Major Expense, is attained by categorize_transaction for some amount. -/
theorem c6_five_labels_counterexample :
    ¬ ((∃ a : ℚ, categorize_transaction a = "Large Income") ∧
       (∃ a : ℚ, categorize_transaction a = "Medium Income") ∧
       (∃ a : ℚ, categorize_transaction a = "Small Income") ∧
       (∃ a : ℚ, categorize_transaction a = "Small Expense") ∧
       (∃ a : ℚ, categorize_transaction a = "Major Expense")) := by
  rintro ⟨-, -, -, -, ⟨a, ha⟩⟩
  exact categorize_ne_major a ha

/-- C6 amended: the range of categorize_transaction covers exactly four
labels — Large Income, Medium Income, Small Income and Small Expense are
each attained, while Major Expense is never returned. -/
theorem c6_range_four_labels :
    (∃ a : ℚ, categorize_transaction a = "Large Income") ∧
    (∃ a : ℚ, categorize_transaction a = "Medium Income") ∧
    (∃ a : ℚ, categorize_transaction a = "Small Income") ∧
    (∃ a : ℚ, categorize_transaction a = "Small Expense") ∧
    (∀ a : ℚ, categorize_transaction a ≠ "Major Expense") :=
  ⟨⟨2000, by decide⟩, ⟨500, by decide⟩, ⟨50, by decide⟩, ⟨0, by decide⟩,
   categorize_ne_major⟩

/-- C7: both operations are total — the Transaction constructor accepts any
four field values without validation, and categorize_transaction produces
one of its label strings for every numeric input. -/
theorem c7_totality :
    (∀ a : ℚ, categorize_transaction a = "Large Income" ∨
      categorize_transaction a = "Medium Income" ∨
      categorize_transaction a = "Small Income" ∨
      categorize_transaction a = "Small Expense") ∧
    (∀ (am : ℚ) (c d dte : String),
      (Transaction.mk am c d dte).amount = am ∧
      (Transaction.mk am c d dte).category = c ∧
      (Transaction.mk am c d dte).description = d ∧
      (Transaction.mk am c d dte).date = dte) := by
  constructor
  · intro a
    unfold categorize_transaction
    split_ifs <;> first | decide | linarith
  · intro am c d dte
    exact ⟨rfl, rfl, rfl, rfl⟩

/-- C8: the display rendering of a Transaction is exactly the date, a dash,
the category, a colon, a dollar sign, the amount to two decimal places, and
the description in parentheses; in particular the record with amount 1234.5,
category Test, description desc and date 2024-01-01 renders exactly as
stated. -/
theorem c8_render :
    (∀ t : Transaction, t.render = t.date ++ " - " ++ t.category ++ ": $" ++
      formatTwoDec t.amount ++ " (" ++ t.description ++ ")") ∧
    (Transaction.mk (1234.5 : ℚ) "Test" "desc" "2024-01-01").render =
      "2024-01-01 - Test: $1234.50 (desc)" := by
  constructor
  · intro t
    rfl
  · unfold Transaction.render
    rw [formatTwoDec_of_c8_input]
    rfl

/-- C9: constructing a Transaction from any four values and reading back its
four fields returns exactly those values unmodified — in particular the
amount is stored at full precision. -/
theorem c9_round_trip (am : ℚ) (c d dte : String) :
    (Transaction.mk am c d dte).amount = am ∧
    (Transaction.mk am c d dte).category = c ∧
    (Transaction.mk am c d dte).description = d ∧
    (Transaction.mk am c d dte).date = dte :=
  ⟨rfl, rfl, rfl, rfl⟩

/-- C10: with the bucket order Small Expense, Small Income, Medium Income,
Large Income, the bucket of the categorizer output is monotone in the
amount. -/
theorem c10_monotone (a b : ℚ) (hab : a ≤ b) :
    bucketRank (categorize_transaction a) ≤ bucketRank (categorize_transaction b) := by
  rw [bucketRank_categorize, bucketRank_categorize]
  exact amountRank_mono a b hab

/-- Witness for C10 at the concrete pair 1 and 200. -/
theorem c10_monotone_witness :
    (1 : ℚ) ≤ 200 ∧
    bucketRank (categorize_transaction 1) ≤
      bucketRank (categorize_transaction 200) :=
  ⟨by norm_num, c10_monotone 1 200 (by norm_num)⟩
